import Mathlib

/-!
Shallow embedding of `rrg/report.py` (report composition model).

Modelling conventions:
* Filesystem paths are modelled as absolute paths given by their component
  lists (`List String`); the flat string form `"/a/b/c"` is produced by
  `joinAbs` exactly as Python's `str(Path(...))` does for absolute paths.
* The file system tracks both the existing files and the existing
  directories (component-list paths).  Writing a file whose parent
  directory is missing fails — `savefig`/`write_html`/`write_image`/
  `open` do not create directories — and the failure propagates out of
  `write` uncaught; `shutil.rmtree` removes everything under a
  directory, `mkdir(parents=True)` creates a directory chain.
* `uuid4().hex` is modelled by a deterministic fresh-name supply
  (`uuidHex` applied to a counter threaded through rendering); distinct
  counters yield distinct names, matching the collision-free intent.
* `dominate` markup trees are modelled by the inductive `Html`;
  `dominate.util.raw(str(tree))` is modelled structurally by `Html.rawFrag`.
-/

namespace Rrg

/-- Python `str.replace(pat, rep)` on character lists: replaces every
non-overlapping occurrence of `pat`, scanning left to right.  The
recursion is driven by a fuel argument equal to the input length so
the definition is structural (and therefore evaluates by reduction);
each step consumes at least one input character.  (The empty pattern
never arises in our uses; we leave the string unchanged for it.) -/
def listReplaceFuel (pat rep : List Char) : Nat → List Char → List Char
  | _, [] => []
  | 0, s => s
  | fuel + 1, c :: rest =>
    if pat ≠ [] ∧ pat.isPrefixOf (c :: rest) then
      rep ++ listReplaceFuel pat rep fuel (List.drop (pat.length - 1) rest)
    else
      c :: listReplaceFuel pat rep fuel rest

/-- Python `s.replace(pat, rep)` for strings. -/
def strReplace (s pat rep : String) : String :=
  ⟨listReplaceFuel pat.data rep.data s.data.length s.data⟩

/-- Split a character list on a separator character (the splitting
`str.split`/`pathlib` need; structural recursion so it evaluates). -/
def splitOnChar (sep : Char) : List Char → List (List Char)
  | [] => [[]]
  | c :: rest =>
    let r := splitOnChar sep rest
    if c = sep then [] :: r
    else (c :: r.headD []) :: r.tail

/-- Does the string start with `/` (absolute path test)? -/
def startsWithSlash (s : String) : Bool :=
  match s.data with
  | c :: _ => c = '/'
  | [] => false

/-- Components of a POSIX path string: split on `/`, dropping empty and
`"."` components, exactly as `pathlib.Path` normalizes at construction. -/
def parseComps (s : String) : List String :=
  ((splitOnChar '/' s.data).map (fun l => (⟨l⟩ : String))).filter
    (fun c => c ≠ "" && c ≠ ".")

/-- `str(Path(...))` for an absolute path given by its components. -/
def joinAbs (comps : List String) : String :=
  "/" ++ String.intercalate "/" comps

/-- `str(Path(s))` for a (possibly relative) path string `s`:
pathlib drops `"."` and empty components; an emptied relative path
prints as `"."`. -/
def pathStrOfString (s : String) : String :=
  let comps := parseComps s
  if startsWithSlash s then joinAbs comps
  else if comps = [] then "." else String.intercalate "/" comps

/-- Resolve a reference string emitted in the document against the
directory (component list) of the report file, as a browser or OS
would: absolute references stand alone, relative ones are appended and
`..` components pop. -/
def resolveRel (dir : List String) (src : String) : List String :=
  let comps := parseComps src
  let base := if startsWithSlash src then [] else dir
  (base ++ comps).foldl
    (fun acc c => if c = ".." then acc.dropLast else acc ++ [c]) []

/-- `PurePath.stem`: the final component without its last suffix.  The
suffix is `name[i:]` for the last dot index `i` only when `0 < i <
len(name) - 1`. -/
def stemOf (name : String) : String :=
  let cs := name.data
  let dots := (cs.enum.filter (fun p => p.2 = '.')).map (fun p => p.1)
  match dots.getLast? with
  | some i => if 0 < i ∧ i < cs.length - 1 then ⟨cs.take i⟩ else name
  | none => name

/-- `f ∈ directory d` test used for `rmtree` semantics: `f` lies
strictly below directory `d`. -/
def isUnder (d f : List String) : Bool :=
  d.isPrefixOf f && f ≠ d

/-- On-disk state: the files present and the directories present.
Directories are tracked because the plain file writes the program
performs (`savefig`, `write_html`, `write_image`, `open`) do not
create parent directories: a write into a missing directory raises
`FileNotFoundError`, and that error propagates out of `Report.write`
uncaught (fail-fast, no partial-result contract). -/
structure FS where
  files : List (List String)
  dirs : List (List String)

/-- Does the parent directory of `p` exist?  The root always does. -/
def FS.parentExists (fs : FS) (p : List String) : Bool :=
  p.dropLast = [] || fs.dirs.contains p.dropLast

/-- Write a file: appends it when its parent directory exists,
otherwise fails like Python's `FileNotFoundError` from `open`. -/
def FS.writeFile (fs : FS) (p : List String) : Except String FS :=
  if fs.parentExists p then .ok { fs with files := fs.files ++ [p] }
  else .error ("FileNotFoundError: " ++ joinAbs p)

/-- `Path.mkdir(exist_ok=True, parents=True)`: the directory and all
its ancestors come into existence. -/
def FS.mkdirParents (fs : FS) (d : List String) : FS :=
  { fs with dirs := fs.dirs ++ d.inits }

/-- `shutil.rmtree(d)` under its `exists()` guard: every file and
directory strictly below `d`, and `d` itself, disappear (a no-op when
nothing is there). -/
def FS.rmtreeDir (fs : FS) (d : List String) : FS :=
  { files := fs.files.filter (fun f => !(isUnder d f)),
    dirs := fs.dirs.filter (fun x => !(isUnder d x) && x ≠ d) }

/-- Rendering state threaded through one write pass: the file system,
the asset files materialized so far during this pass (in order), and
the fresh-name counter. -/
structure RState where
  fs : FS
  written : List (List String)
  ctr : Nat

/-- Materialize one asset file, recording it; fails (propagating the
I/O error) when the file's parent directory is missing. -/
def RState.writeAsset (st : RState) (p : List String) : Except String RState :=
  match st.fs.writeFile p with
  | .error e => .error e
  | .ok fs2 => .ok { st with fs := fs2, written := st.written ++ [p] }

/-- A `dominate` markup fragment.  `rawFrag` models
`dominate.util.raw(str(subtree))` structurally (serialize-then-reparse
is the identity on the fragment). -/
inductive Html where
  | tag (name : String) (attrs : List (String × String)) (children : List Html)
  | text (s : String)
  | rawFrag (h : Html)

/-- Constructor discriminator (used to separate markup shapes without
a decidable equality on trees). -/
def Html.ctorName : Html → String
  | .tag _ _ _ => "tag"
  | .text _ => "text"
  | .rawFrag _ => "rawFrag"

/-- The value of attribute `k` on the outermost tag, if any. -/
def Html.attrVal (k : String) : Html → Option String
  | .tag _ attrs _ => ((attrs.filter (fun p => p.1 = k)).head?).map (fun p => p.2)
  | _ => none

mutual

/-- All `src` attribute values occurring in a fragment, in document
order (asset references emitted into the document). -/
def Html.collectSrcs : Html → List String
  | .tag _ attrs children =>
      ((attrs.filter (fun p => p.1 = "src")).map (fun p => p.2))
        ++ collectSrcsList children
  | .text _ => []
  | .rawFrag h => Html.collectSrcs h

/-- `src` values over a list of fragments (a document body). -/
def collectSrcsList : List Html → List String
  | [] => []
  | h :: t => Html.collectSrcs h ++ collectSrcsList t

end

/-- A Python runtime value as far as `rrg.report` can observe it.
The constructors cover the classes the code dispatches on
(`dominate` tags, `str`, `plt.Figure`, `go.Figure`, the `BaseElement`
subclasses, `Divider`, `SectionHeader`) plus:
* `strBase`: a value of a user class inheriting both `str` and
  `BaseElement` with a `tag` attribute (legal in Python, observable by
  two branches of `_resolve_element`);
* `otherVal`: an arbitrary unrecognized object carrying its `str()` form. -/
inductive Value where
  | htmlTag (h : Html)
  | strVal (s : String)
  | pltFig (figId : Nat)
  | goFig (figId : Nat) (layoutHeight : Option Nat)
  | textElem (content : String)
  | htmlElem (content : Html)
  | mplElem (tag : Option String) (height : Option String) (width : String) (figId : Nat)
  | plotlyElem (tag : Option String) (height : Option String) (width : String)
      (layoutHeight : Option Nat) (figId : Nat)
  | divider (strength : Nat)
  | sectionHdr (name : String)
  | strBase (s : String) (tag : Option String)
  | otherVal (s : String)

/-- Constructor discriminator for `Value`. -/
def Value.kindName : Value → String
  | .htmlTag _ => "htmlTag"
  | .strVal _ => "strVal"
  | .pltFig _ => "pltFig"
  | .goFig _ _ => "goFig"
  | .textElem _ => "textElem"
  | .htmlElem _ => "htmlElem"
  | .mplElem _ _ _ _ => "mplElem"
  | .plotlyElem _ _ _ _ _ => "plotlyElem"
  | .divider _ => "divider"
  | .sectionHdr _ => "sectionHdr"
  | .strBase _ _ => "strBase"
  | .otherVal _ => "otherVal"

/-- `isinstance(el, dominate.tags.html_tag)`. -/
def Value.isHtmlTag : Value → Bool
  | .htmlTag _ => true
  | _ => false

/-- `isinstance(el, str)` (true also for a `str` subclass). -/
def Value.isStr : Value → Bool
  | .strVal _ => true
  | .strBase _ _ => true
  | _ => false

/-- `isinstance(el, plt.Figure)`. -/
def Value.isPltFigure : Value → Bool
  | .pltFig _ => true
  | _ => false

/-- `isinstance(el, go.Figure)`. -/
def Value.isGoFigure : Value → Bool
  | .goFig _ _ => true
  | _ => false

/-- `isinstance(el, BaseElement)`: the `BaseElement` subclasses are
`TextElement`, `HTMLElement` (and `MarkdownElement`),
`MatplotlibElement`, `PlotlyElement`, and user subclasses such as the
hybrid `strBase`. -/
def Value.isBaseElement : Value → Bool
  | .textElem _ => true
  | .htmlElem _ => true
  | .mplElem _ _ _ _ => true
  | .plotlyElem _ _ _ _ _ => true
  | .strBase _ _ => true
  | _ => false

/-- `hasattr(el, "tag")`. -/
def Value.hasTagAttr : Value → Bool
  | .mplElem _ _ _ _ => true
  | .plotlyElem _ _ _ _ _ => true
  | .strBase _ _ => true
  | _ => false

/-- `el.tag = tag` on a value with a `tag` attribute (identity on the
rest). -/
def Value.setTag (t : String) : Value → Value
  | .mplElem _ h w f => .mplElem (some t) h w f
  | .plotlyElem _ h w lh f => .plotlyElem (some t) h w lh f
  | .strBase s _ => .strBase s (some t)
  | v => v

/-- `str(el)`.  For values whose Python `repr` embeds a memory address
we use a fixed placeholder (the address never reaches a claim). -/
def Value.strConv : Value → String
  | .htmlTag _ => "<dominate tag>"
  | .strVal s => s
  | .pltFig _ => "<matplotlib figure>"
  | .goFig _ _ => "<plotly figure>"
  | .textElem s => s
  | .htmlElem _ => "<HTMLElement object>"
  | .mplElem _ _ _ _ => "<MatplotlibElement object>"
  | .plotlyElem _ _ _ _ _ => "<PlotlyElement object>"
  | .divider _ => "<Divider object>"
  | .sectionHdr _ => "<SectionHeader object>"
  | .strBase s _ => s
  | .otherVal s => s

/-- The markup tree of a value that is a `dominate` tag (junk on other
values; only applied under `isHtmlTag`). -/
def Value.htmlTagContent : Value → Html
  | .htmlTag h => h
  | _ => .text ""

/-- The string content of a value that is a `str` (junk otherwise;
only applied under `isStr`). -/
def Value.strContent : Value → String
  | .strVal s => s
  | .strBase s _ => s
  | _ => ""

/-- The figure id of a figure value (junk otherwise). -/
def Value.figIdOf : Value → Nat
  | .pltFig i => i
  | .goFig i _ => i
  | _ => 0

/-- `fig.layout.height` of a plotly figure value. -/
def Value.layoutHeightOf : Value → Option Nat
  | .goFig _ lh => lh
  | _ => none

/-- `_resolve_element(el, tag)`: the `isinstance` dispatch chain of
`report.py`, in source order.  `HTMLElement(el)` stores `str(el)` and
re-emits it raw, modelled structurally as the tag's tree;
`TextElement(el)` stores the string itself; the figure branches build
`MatplotlibElement(el, tag)` / `PlotlyElement(el, tag)` with default
`height=None`, `width="100%"`; a `BaseElement` with a `tag` attribute
gets the tag overridden and is returned as-is; anything else falls
through unchanged (Passthrough). -/
def _resolve_element (el : Value) (tag : String) : Value :=
  if el.isHtmlTag then .htmlElem el.htmlTagContent
  else if el.isStr then .textElem el.strContent
  else if el.isPltFigure then .mplElem (some tag) none "100%" el.figIdOf
  else if el.isGoFigure then .plotlyElem (some tag) none "100%" el.layoutHeightOf el.figIdOf
  else if el.isBaseElement && el.hasTagAttr then el.setTag tag
  else el

/-- Input to a `_NCols` constructor: a plain ordered sequence of raw
values, or an order-preserving mapping tag → raw value. -/
inductive ColsInput where
  | seq (vs : List Value)
  | dict (entries : List (String × Value))

/-- The `(tag, value)` entries of an input: a plain sequence gets tags
`"(0)"`, `"(1)"`, … from its positions. -/
def ColsInput.entries : ColsInput → List (String × Value)
  | .seq vs => vs.enum.map (fun p => ("(" ++ toString p.1 ++ ")", p.2))
  | .dict es => es

/-- `len(elements)` for either input form. -/
def ColsInput.len : ColsInput → Nat
  | .seq vs => vs.length
  | .dict es => es.length

/-- A constructed `_NCols` layout container: declared column count,
column class string, and the resolved elements. -/
structure NCols where
  n_cols : Nat
  col_cls : String
  elements : List Value

/-- `_NCols.__init__`: resolve every entry via `_resolve_element`. -/
def ncolsInit (n : Nat) (cls : String) (input : ColsInput) : NCols :=
  { n_cols := n, col_cls := cls,
    elements := input.entries.map (fun p => _resolve_element p.2 p.1) }

/-- `Cols1`: fixed preset, one full-width column. -/
def Cols1 (input : ColsInput) : NCols := ncolsInit 1 "xl-12" input

/-- `Cols2`: fixed preset. -/
def Cols2 (input : ColsInput) : NCols := ncolsInit 2 "lg-6" input

/-- `Cols3`: fixed preset. -/
def Cols3 (input : ColsInput) : NCols := ncolsInit 3 "lg-4" input

/-- The auto-sizing `Cols.__init__` class-selection chain: `N == 1 →
"xl-12"`, `N == 2 → "lg-6"`, `N == 3 → "lg-4"`, `N == 4 → "md-3"`,
`N < 7 → "sm-2"`, else `"sm-1"`. -/
def colsCls (N : Nat) : String :=
  if N = 1 then "xl-12"
  else if N = 2 then "lg-6"
  else if N = 3 then "lg-4"
  else if N = 4 then "md-3"
  else if N < 7 then "sm-2"
  else "sm-1"

/-- `Cols`: auto-sizing variant, `n_cols = len(elements)`. -/
def Cols (input : ColsInput) : NCols :=
  ncolsInit input.len (colsCls input.len) input

/-- `Divider.__init__`'s style string for a given strength. -/
def dividerStyle (strength : Nat) : String :=
  "height:" ++ toString strength ++ "px;border:none;color:#000;background-color:#000;"

/-- `SectionHeader.__init__`: `self._id = name.replace(" ", "_")`
(every space character becomes an underscore). -/
def anchorId (name : String) : String :=
  ⟨name.data.map (fun c => if c = ' ' then '_' else c)⟩

/-- `SectionHeader._get_html`: a div with the anchor id containing the
divider and the `h2` heading (the heading passed through
`HTMLElement`, i.e. raw re-emission of its markup). -/
def sectionHeaderHtml (name : String) : Html :=
  .tag "div" [("id", anchorId name)]
    [.tag "hr" [("style", dividerStyle 5)] [],
     .rawFrag (.tag "h2" [] [.text name])]

/-- The `config` dict passed down by `Report._write_elements`. -/
structure Config where
  assets : List String
  plotly_thumbnails : Bool

/-- `uuid4().hex` modelled as a deterministic fresh-name supply. -/
def uuidHex (n : Nat) : String := "id" ++ toString n

/-- Optional `height=` keyword attributes. -/
def heightAttrOf : Option String → List (String × String)
  | some hgt => [("height", hgt)]
  | none => []

/-- A tag label in a caption row (`None` prints as Python does). -/
def tagText : Option String → String
  | some t => t
  | none => "None"

/-- `MatplotlibElement._get_html`: pick a fresh name, save the figure
to `assets/<name>` (failing if the directory is missing), compute the
reference as `str(target).replace(str(target.parents[2]), ".")` (then
`pathlib` normalization on emission), and build the anchor-wrapped
image plus caption row. -/
def mplGetHtml (cfg : Config) (st : RState) (tag : Option String)
    (height : Option String) (width : String) :
    Except String (Html × RState) :=
  let name := uuidHex st.ctr ++ ".png"
  let target := cfg.assets ++ [name]
  let targetStr := joinAbs target
  let relRaw := strReplace targetStr (joinAbs (target.take (target.length - 3))) "."
  let srcStr := pathStrOfString relRaw
  match st.writeAsset target with
  | .error e => .error e
  | .ok st2 =>
    let img := Html.tag "a"
      ([("href", srcStr), ("target", "_blank")] ++ heightAttrOf height)
      [Html.tag "img" [("src", srcStr), ("width", width), ("class", "text-center")] []]
    let cap := Html.tag "p" [("class", "text-center")]
      [Html.text (tagText tag),
       Html.tag "a" [("href", srcStr), ("target", "_blank")]
         [Html.tag "i" [("class", "fa-solid fa-up-right-from-square text-center")] []]]
    .ok (Html.tag "div" [] [img, cap], { st2 with ctr := st2.ctr + 1 })

/-- `PlotlyElement._get_html`: write the interactive document to
`assets/<name>.html`; with thumbnails also write a bitmap whose path
is `str(html_target).replace(".html", ".png")` — `write_image` raises
`FileNotFoundError` when that (possibly relocated) path's directory
does not exist, aborting the pass — and show the bitmap linking to
the document; without thumbnails embed the document in an iframe
sized by the explicit height or the figure's layout height. -/
def plotlyGetHtml (cfg : Config) (st : RState) (tag : Option String)
    (height : Option String) (width : String) (layoutHeight : Option Nat) :
    Except String (Html × RState) :=
  let name := uuidHex st.ctr ++ ".html"
  let htmlTarget := cfg.assets ++ [name]
  let htmlTargetStr := joinAbs htmlTarget
  let htmlRelRaw :=
    "./" ++ strReplace htmlTargetStr (joinAbs (htmlTarget.take (htmlTarget.length - 3))) "."
  let htmlSrc := pathStrOfString htmlRelRaw
  let cap := Html.tag "p" [("class", "text-center")]
    [Html.text (tagText tag),
     Html.tag "a" [("href", htmlSrc), ("target", "_blank")]
       [Html.tag "i" [("class", "fa-solid fa-up-right-from-square text-center")] []]]
  match st.writeAsset htmlTarget with
  | .error e => .error e
  | .ok st1 =>
    if cfg.plotly_thumbnails then
      let pngTargetStr := strReplace htmlTargetStr ".html" ".png"
      let pngTarget := parseComps pngTargetStr
      let pngRelRaw :=
        "./" ++ strReplace pngTargetStr (joinAbs (pngTarget.take (pngTarget.length - 3))) "."
      let pngSrc := pathStrOfString pngRelRaw
      match st1.writeAsset pngTarget with
      | .error e => .error e
      | .ok st2 =>
        let img := Html.tag "a" [("href", htmlSrc), ("target", "_blank")]
          [Html.tag "img"
            ([("src", pngSrc), ("width", width), ("class", "text-center")]
              ++ heightAttrOf height) []]
        .ok (Html.tag "div" [] [img, cap], { st2 with ctr := st2.ctr + 1 })
    else
      let hAttr := match height with
        | some hgt => [("height", hgt)]
        | none => match layoutHeight with
          | some n => [("height", toString n ++ "px")]
          | none => []
      let img := Html.tag "iframe"
        ([("src", htmlSrc), ("width", width), ("class", "text-center")] ++ hAttr) []
      .ok (Html.tag "div" [] [img, cap], { st1 with ctr := st1.ctr + 1 })

/-- Rendering of one column entry inside `_NCols._get_html`:
`try: el._get_html(config)` — every resolved element and every
passthrough object providing `_get_html` renders through it
(materialization errors propagate uncaught) — `except AttributeError:
str(el)` — any other passthrough value is stringified at render time
and inserted as text. -/
def renderEntryHtml (cfg : Config) (st : RState) (v : Value) :
    Except String (Html × RState) :=
  match v with
  | .textElem s => .ok (.tag "p" [] [.text s], st)
  | .htmlElem h => .ok (.rawFrag h, st)
  | .mplElem tag height width _ => mplGetHtml cfg st tag height width
  | .plotlyElem tag height width layoutHeight _ =>
      plotlyGetHtml cfg st tag height width layoutHeight
  | .divider k => .ok (.tag "hr" [("style", dividerStyle k)] [], st)
  | .sectionHdr n => .ok (sectionHeaderHtml n, st)
  | v => .ok (.text v.strConv, st)

/-- The per-entry loop of `_NCols._get_html`: one `col-<cls>` div per
entry, state threaded left to right, the first error aborting. -/
def renderCols (cfg : Config) (cls : String) :
    RState → List Value → Except String (List Html × RState)
  | st, [] => .ok ([], st)
  | st, v :: rest =>
    match renderEntryHtml cfg st v with
    | .error e => .error e
    | .ok (h, st2) =>
      match renderCols cfg cls st2 rest with
      | .error e => .error e
      | .ok (hs, st3) =>
        .ok (Html.tag "div" [("class", "col-" ++ cls)] [h] :: hs, st3)

/-- `_NCols._get_html`: the rendered columns wrapped in a row and a
fluid container. -/
def ncolsHtml (cfg : Config) (st : RState) (c : NCols) :
    Except String (Html × RState) :=
  match renderCols cfg c.col_cls st c.elements with
  | .error e => .error e
  | .ok (hs, st2) =>
    .ok (Html.tag "div" [("class", "container-fluid")]
           [Html.tag "div" [("class", "row")] hs], st2)

/-- The path-derived fields set by `Report._setup_path`: directory
components, file name, and stem of the output file. -/
structure PathInfo where
  dir : List String
  fileName : String
  stem : String

/-- The report file's own path. -/
def PathInfo.htmlPath (pi : PathInfo) : List String := pi.dir ++ [pi.fileName]

/-- The asset directory `<dirname(path)>/assets/<stem(path)>`. -/
def PathInfo.assets (pi : PathInfo) : List String := pi.dir ++ ["assets", pi.stem]

/-- `_setup_path`'s decomposition of a path string. -/
def mkPathInfo (p : String) : PathInfo :=
  let comps := parseComps p
  let fileName := comps.getLastD ""
  { dir := comps.dropLast, fileName := fileName, stem := stemOf fileName }

/-- The `Report` builder state. -/
structure Report where
  title : String
  plotly_thumbnails : Bool
  toc_width : Int
  pathInfo : Option PathInfo
  elements : List NCols
  toc : List (String × String)

/-- `Report.__init__`: `_setup_path` leaves the path fields unset when
`path is None`; no elements, no TOC entries. -/
def Report.init (path : Option String) (title : String)
    (plotly_thumbnails : Bool) (toc_width : Int) : Report :=
  { title := title, plotly_thumbnails := plotly_thumbnails,
    toc_width := toc_width, pathInfo := path.map mkPathInfo,
    elements := [], toc := [] }

/-- `Report._setup_path` at `write` time: a `None` path is a no-op,
otherwise all path-derived fields are recomputed. -/
def Report.setup_path (r : Report) (path : Option String) : Report :=
  match path with
  | none => r
  | some p => { r with pathInfo := some (mkPathInfo p) }

/-- Argument to `Report.add_element`: an `_NCols` container or any
other value. -/
inductive AddInput where
  | cols (c : NCols)
  | val (v : Value)

/-- `Report.add_element`: a `SectionHeader` additionally appends its
`(name, id)` pair to the TOC; anything that is not an `_NCols` is
wrapped in a `Cols1` singleton before being appended. -/
def Report.add_element (r : Report) (e : AddInput) : Report :=
  let r1 := match e with
    | .val (Value.sectionHdr n) => { r with toc := r.toc ++ [(n, anchorId n)] }
    | _ => r
  match e with
  | .cols c => { r1 with elements := r1.elements ++ [c] }
  | .val v => { r1 with elements := r1.elements ++ [Cols1 (ColsInput.seq [v])] }

/-- `Report.add_elements`: `add_element` over each argument in order. -/
def Report.add_elements (r : Report) (es : List AddInput) : Report :=
  es.foldl Report.add_element r

/-- The fixed title block emitted at the top of the body: `h1` title
and a strength-7 divider in a full-width column. -/
def titleBlock (title : String) : Html :=
  .tag "div" [("class", "container-fluid")]
    [.tag "div" [("class", "row")]
      [.tag "div" [("class", "col-xl-12")]
        [.tag "h1" [] [.text title],
         .tag "hr" [("style", dividerStyle 7)] []]]]

/-- One TOC link: `D.p(D.a(name, href="#" + id))`. -/
def tocLink (e : String × String) : Html :=
  .tag "p" [] [.tag "a" [("href", "#" ++ e.2)] [.text e.1]]

/-- `Report._write_elements`: render every top-level container in
insertion order, threading the file system and the name counter; the
first materialization error aborts the pass. -/
def writeElements (cfg : Config) :
    RState → List NCols → Except String (List Html × RState)
  | st, [] => .ok ([], st)
  | st, c :: rest =>
    match ncolsHtml cfg st c with
    | .error e => .error e
    | .ok (h, st2) =>
      match writeElements cfg st2 rest with
      | .error e => .error e
      | .ok (hs, st3) => .ok (h :: hs, st3)

/-- Result of a successful `Report.write`: the (possibly re-pathed)
report, the file system afterwards, the emitted document body, the
asset files materialized during this call, and the next fresh-name
counter. -/
structure WriteOut where
  report : Report
  fs : FS
  body : List Html
  written : List (List String)
  ctr : Nat

/-- The `config` dict `Report._write_elements` builds for a report
with resolved path fields `pinfo`. -/
def cfgOf (r : Report) (pinfo : PathInfo) : Config :=
  { assets := pinfo.assets, plotly_thumbnails := r.plotly_thumbnails }

/-- The document body assembled by `write` from the element
fragments: two-column TOC layout when the TOC is nonempty, content
emitted directly otherwise. -/
def bodyOf (r : Report) (frags : List Html) : List Html :=
  if r.toc = [] then titleBlock r.title :: frags
  else
    [titleBlock r.title,
     Html.tag "div" [("class", "container-fluid")]
       [Html.tag "div" [("class", "row")]
         [Html.tag "div" [("class", "col-md-" ++ toString r.toc_width)]
            (r.toc.map tocLink),
          Html.tag "div" [("class", "col-lg-" ++ toString (12 - r.toc_width))]
            frags]]]

/-- The rendering state right after the asset-directory reset: the
asset directory tree is deleted (`rmtree` under its `exists()` guard)
and recreated (`mkdir(exist_ok=True, parents=True)`), before any
element renders; nothing has been materialized yet. -/
def resetState (fs : FS) (pinfo : PathInfo) (ctr : Nat) : RState :=
  { fs := (fs.rmtreeDir pinfo.assets).mkdirParents pinfo.assets,
    written := [], ctr := ctr }

/-- The write pass over a report whose path fields resolve to
`pinfo`: reset the asset directory, render all elements (any
materialization error propagates, aborting), assemble the body, and
write the report file. -/
def Report.writeResolved (r : Report) (pinfo : PathInfo)
    (fs : FS) (ctr : Nat) : Except String WriteOut :=
  match writeElements (cfgOf r pinfo) (resetState fs pinfo ctr) r.elements with
  | .error e => .error e
  | .ok (frags, st) =>
    match st.fs.writeFile pinfo.htmlPath with
    | .error e => .error e
    | .ok fs2 =>
      .ok { report := r, fs := fs2, body := bodyOf r frags,
            written := st.written, ctr := st.ctr }

/-- `Report.write(path)`: re-run `_setup_path`; fail fast when no
path is resolved; otherwise run the write pass. -/
def Report.write (r0 : Report) (path : Option String)
    (fs : FS) (ctr : Nat) : Except String WriteOut :=
  let r := r0.setup_path path
  match r.pathInfo with
  | none => .error "Trying to call Report.write() without specifying an output path."
  | some pinfo => r.writeResolved pinfo fs ctr

/-- A successful `write` outcome, with a default for the error case
(used to state closed concrete facts without binders). -/
def okOr (e : Except String WriteOut) (d : WriteOut) : WriteOut :=
  match e with
  | .ok o => o
  | .error _ => d

/-- The empty file system. -/
def fsEmpty : FS := { files := [], dirs := [] }

/-- Default `WriteOut` for `okOr`. -/
def emptyOut : WriteOut :=
  { report := Report.init none "" true 2, fs := fsEmpty, body := [],
    written := [], ctr := 0 }

/-- `Except.isOk`. -/
def isOkE (e : Except String WriteOut) : Bool :=
  match e with
  | .ok _ => true
  | .error _ => false

/-! ## Claim-side definitions

These definitions follow the wording of the specification (not the
source); they exist to be compared with the source-derived definitions
above. -/

/-- Column width in twelfths encoded by a column class string: the
number after the dash (`"xl-12" ↦ 12`, `"sm-1" ↦ 1`, …). -/
def clsWidth (cls : String) : Nat :=
  ((splitOnChar '-' cls.data).getLastD []).foldl
    (fun acc c => acc * 10 + (c.toNat - '0'.toNat)) 0

/-- The column-width table of the claim: full width (12/12) for
`N = 1`, half for 2, third for 3, quarter for 4, sixth for 5 or 6,
twelfth for `N ≥ 7`. -/
def specColWidth (N : Nat) : Nat :=
  if N = 1 then 12
  else if N = 2 then 6
  else if N = 3 then 4
  else if N = 4 then 3
  else if N = 5 ∨ N = 6 then 2
  else 1

/-- Element resolution in the order the claim states it: the
Element-capability check first, then markup, string, figure,
interactive figure, and the fallback. -/
def resolveSpecOrder (el : Value) (tag : String) : Value :=
  if el.isBaseElement && el.hasTagAttr then el.setTag tag
  else if el.isHtmlTag then .htmlElem el.htmlTagContent
  else if el.isStr then .textElem el.strContent
  else if el.isPltFigure then .mplElem (some tag) none "100%" el.figIdOf
  else if el.isGoFigure then .plotlyElem (some tag) none "100%" el.layoutHeightOf el.figIdOf
  else el

/-- Element resolution as the code actually orders it, written as a
per-shape case analysis: markup, string (also for a string that is
simultaneously a tagged `BaseElement`), figure, interactive figure,
then the Element-capability check, then the fallback. -/
def resolveAmendedOrder : Value → String → Value
  | .htmlTag h, _ => .htmlElem h
  | .strVal s, _ => .textElem s
  | .strBase s _, _ => .textElem s
  | .pltFig i, t => .mplElem (some t) none "100%" i
  | .goFig i lh, t => .plotlyElem (some t) none "100%" lh i
  | .mplElem _ hgt w i, t => .mplElem (some t) hgt w i
  | .plotlyElem _ hgt w lh i, t => .plotlyElem (some t) hgt w lh i
  | v, _ => v

/-- Anchor derivation as the claim states it: every whitespace
character replaced by an underscore. -/
def anchorIdSpecWhitespace (name : String) : String :=
  ⟨name.data.map (fun c => if c.isWhitespace then '_' else c)⟩

/-! ## Claims -/

/-- C3: for every sequence of `N ≥ 1` entries given to the auto-sizing
container `Cols`, the column-width class encodes exactly the width of
the claim's table (12, 6, 4, 3, 2, 2, 1, … twelfths), and the class is
a pure function of `N`. -/
theorem cols_width_matches_table (input : ColsInput) (hn : 1 ≤ input.len) :
    clsWidth (Cols input).col_cls = specColWidth input.len ∧
    ∀ input2 : ColsInput, input2.len = input.len →
      (Cols input2).col_cls = (Cols input).col_cls := by
  constructor
  · show clsWidth (colsCls input.len) = specColWidth input.len
    unfold colsCls specColWidth
    split_ifs <;> first | decide | omega
  · intro input2 hlen
    show colsCls input2.len = colsCls input.len
    rw [hlen]

/-- C3 witness: a three-entry `Cols` gets the third-width class. -/
theorem cols_width_matches_table_witness :
    1 ≤ (ColsInput.seq [Value.strVal "a", Value.strVal "b", Value.strVal "c"]).len ∧
    clsWidth (Cols (ColsInput.seq [Value.strVal "a", Value.strVal "b", Value.strVal "c"])).col_cls
      = specColWidth (ColsInput.seq [Value.strVal "a", Value.strVal "b", Value.strVal "c"]).len :=
  ⟨by decide,
   (cols_width_matches_table
     (ColsInput.seq [Value.strVal "a", Value.strVal "b", Value.strVal "c"]) (by decide)).1⟩

/-- C9 (amended): the fixed presets always declare `N ≥ 1`; the
auto-sizing `Cols` declares `N ≥ 1` whenever its input has at least
one entry (an empty input yields `N = 0`); and for every constructor
resolution produces exactly one element per entry. -/
theorem ncols_invariant (input : ColsInput) (hne : 1 ≤ input.len) :
    (1 ≤ (Cols input).n_cols ∧ (Cols input).elements.length = input.len) ∧
    (1 ≤ (Cols1 input).n_cols ∧ (Cols1 input).elements.length = input.len) ∧
    (1 ≤ (Cols2 input).n_cols ∧ (Cols2 input).elements.length = input.len) ∧
    (1 ≤ (Cols3 input).n_cols ∧ (Cols3 input).elements.length = input.len) := by
  have hlen : ∀ n cls, (ncolsInit n cls input).elements.length = input.len := by
    intro n cls
    simp only [ncolsInit, List.length_map]
    cases input <;> simp [ColsInput.entries, ColsInput.len]
  refine ⟨⟨hne, hlen _ _⟩, ⟨?_, hlen _ _⟩, ⟨?_, hlen _ _⟩, ⟨?_, hlen _ _⟩⟩ <;> simp [Cols1, Cols2, Cols3, ncolsInit]

/-- C9 witness: a one-entry `Cols` has `N = 1` and one resolved
element. -/
theorem ncols_invariant_witness :
    1 ≤ (ColsInput.seq [Value.strVal "a"]).len ∧
    1 ≤ (Cols (ColsInput.seq [Value.strVal "a"])).n_cols ∧
    (Cols (ColsInput.seq [Value.strVal "a"])).elements.length
      = (ColsInput.seq [Value.strVal "a"]).len :=
  ⟨by decide, (ncols_invariant (ColsInput.seq [Value.strVal "a"]) (by decide)).1⟩

/-- C9 counterexample: `Cols` accepts the empty sequence and then
declares `N = 0`, violating the claimed invariant `N ≥ 1`. -/
theorem ncols_invariant_counterexample :
    ¬ 1 ≤ (Cols (ColsInput.seq [])).n_cols := by decide

/-- C7 (amended): adding a `SectionHeader` named `n` through
`add_element` appends exactly one TOC entry `(n, id)` where the id is
`n` with every space character (not all whitespace) replaced by an
underscore, and rendering the header emits a container whose `id`
attribute is exactly that id. -/
theorem section_header_toc_anchor (r : Report) (name : String)
    (cfg : Config) (st : RState) :
    (r.add_element (AddInput.val (Value.sectionHdr name))).toc
      = r.toc ++ [(name, anchorId name)] ∧
    renderEntryHtml cfg st (Value.sectionHdr name)
      = .ok (sectionHeaderHtml name, st) ∧
    (sectionHeaderHtml name).attrVal "id" = some (anchorId name) := by
  refine ⟨?_, rfl, ?_⟩
  · simp [Report.add_element]
  · simp [sectionHeaderHtml, Html.attrVal]

/-- C7 counterexample: for the name `"A\tB"` (a tab is whitespace)
the TOC entry the code appends is not the one the claim derives by
replacing whitespace with underscores. -/
theorem section_header_toc_anchor_counterexample :
    ((Report.init none "t" true 2).add_element
        (AddInput.val (Value.sectionHdr "A\tB"))).toc
      ≠ [("A\tB", anchorIdSpecWhitespace "A\tB")] := by decide

/-- C2 (amended): element resolution is total and first-match, but the
Element-capability check comes after the markup, string, figure and
interactive-figure checks (just before the fallback), as the
per-shape case analysis `resolveAmendedOrder` states. -/
theorem resolve_element_precedence (el : Value) (tag : String) :
    _resolve_element el tag = resolveAmendedOrder el tag := by
  cases el <;> rfl

/-- C2 counterexample: a value of a class inheriting both `str` and
`BaseElement` (with a `tag` attribute) is captured by the string check
and turned into a Text element, whereas the claim's order would return
it as-is with its tag overridden. -/
theorem resolve_element_precedence_counterexample :
    _resolve_element (Value.strBase "hello" none) "(0)"
      ≠ resolveSpecOrder (Value.strBase "hello" none) "(0)" := by
  intro hEq
  exact absurd (congrArg Value.kindName hEq) (by decide)

/-- C8 (amended): resolution is total and never raises — a plain
string becomes a Text element rendered as a paragraph of that text, a
pre-rendered markup fragment becomes a Markup element re-emitted raw,
and any unrecognized value passes through resolution unchanged;
conversion happens only at render time, via the value's own rendering
method when it has one and via string conversion otherwise (as for a
generic opaque object). -/
theorem resolution_total_and_renders (s tagStr : String) (h : Html)
    (v : Value) (cfg : Config) (st : RState)
    (hunrec : v.isHtmlTag = false ∧ v.isStr = false ∧ v.isPltFigure = false ∧
      v.isGoFigure = false ∧ (v.isBaseElement && v.hasTagAttr) = false) :
    (_resolve_element (Value.strVal s) tagStr = Value.textElem s ∧
      renderEntryHtml cfg st (Value.textElem s)
        = .ok (Html.tag "p" [] [Html.text s], st)) ∧
    (_resolve_element (Value.htmlTag h) tagStr = Value.htmlElem h ∧
      renderEntryHtml cfg st (Value.htmlElem h) = .ok (Html.rawFrag h, st)) ∧
    _resolve_element v tagStr = v ∧
    renderEntryHtml cfg st (Value.otherVal s) = .ok (Html.text s, st) := by
  refine ⟨⟨rfl, rfl⟩, ⟨rfl, rfl⟩, ?_, rfl⟩
  unfold _resolve_element
  rw [hunrec.1, hunrec.2.1, hunrec.2.2.1, hunrec.2.2.2.1, hunrec.2.2.2.2]
  rfl

/-- C8 witness: at a concrete opaque object the passthrough clauses
hold. -/
theorem resolution_total_and_renders_witness :
    _resolve_element (Value.otherVal "obj") "(0)" = Value.otherVal "obj" :=
  (resolution_total_and_renders "s" "(0)" (Html.text "x") (Value.otherVal "obj")
    { assets := [], plotly_thumbnails := true }
    { fs := fsEmpty, written := [], ctr := 0 }
    ⟨rfl, rfl, rfl, rfl, rfl⟩).2.2.1

/-- The constructor name of a successfully rendered fragment
(`"error"` for a failed rendering). -/
def fragNameOf (e : Except String (Html × RState)) : String :=
  match e with
  | .ok p => Html.ctorName p.1
  | .error _ => "error"

/-- C8 counterexample: a `Divider` is unrecognized by the resolver
(it passes through unchanged) yet renders through its own `_get_html`
as an `hr` tag, not via its string conversion as the claim states. -/
theorem resolution_passthrough_counterexample :
    ¬ (renderEntryHtml { assets := [], plotly_thumbnails := true }
          { fs := fsEmpty, written := [], ctr := 0 }
          (_resolve_element (Value.divider 5) "(0)")
        = .ok (Html.text (Value.divider 5).strConv,
            { fs := fsEmpty, written := [], ctr := 0 })) := by
  intro hEq
  exact absurd (congrArg fragNameOf hEq) (by decide)

/-! ## Write-protocol lemmas -/

/-- `_setup_path` touches only the path-derived fields. -/
theorem setup_path_frame (r : Report) (p : Option String) :
    (r.setup_path p).elements = r.elements ∧ (r.setup_path p).toc = r.toc ∧
    (r.setup_path p).title = r.title ∧
    (r.setup_path p).plotly_thumbnails = r.plotly_thumbnails ∧
    (r.setup_path p).toc_width = r.toc_width := by
  cases p <;> simp [Report.setup_path]

/-- A successful `write` is exactly a successful resolved pass of the
re-pathed report. -/
theorem write_ok_inv (r0 : Report) (p : Option String) (fs : FS)
    (ctr : Nat) (out : WriteOut) (hok : r0.write p fs ctr = Except.ok out) :
    ∃ pinfo, (r0.setup_path p).pathInfo = some pinfo ∧
      (r0.setup_path p).writeResolved pinfo fs ctr = Except.ok out := by
  simp only [Report.write] at hok
  split at hok
  · exact absurd hok (by simp)
  · rename_i pinfo heq
    exact ⟨pinfo, heq, hok⟩

/-- Inversion of a successful resolved pass: the elements rendered
successfully, the report file wrote successfully, and the outcome is
assembled from those. -/
theorem writeResolved_ok_inv (r : Report) (pinfo : PathInfo) (fs : FS)
    (ctr : Nat) (out : WriteOut)
    (hok : r.writeResolved pinfo fs ctr = Except.ok out) :
    ∃ frags st1 fs2,
      writeElements (cfgOf r pinfo) (resetState fs pinfo ctr) r.elements
        = Except.ok (frags, st1) ∧
      st1.fs.writeFile pinfo.htmlPath = Except.ok fs2 ∧
      out = { report := r, fs := fs2, body := bodyOf r frags,
              written := st1.written, ctr := st1.ctr } := by
  unfold Report.writeResolved at hok
  split at hok
  · exact absurd hok (by simp)
  · rename_i frags st1 heq1
    split at hok
    · exact absurd hok (by simp)
    · rename_i fs2 heq2
      injection hok with h2
      exact ⟨frags, st1, fs2, heq1, heq2, h2.symm⟩

/-- A successful file write appends exactly that file. -/
theorem writeFile_ok_files (fs : FS) (p : List String) (fs2 : FS)
    (hok : fs.writeFile p = Except.ok fs2) :
    fs2.files = fs.files ++ [p] := by
  unfold FS.writeFile at hok
  split at hok
  · injection hok with h2
    rw [← h2]
  · exact absurd hok (by simp)

/-- A successful asset materialization appends the file to the file
system and records it, in step. -/
theorem writeAsset_ok_state (st : RState) (p : List String) (st2 : RState)
    (hok : st.writeAsset p = Except.ok st2) :
    st2.written = st.written ++ [p] ∧ st2.fs.files = st.fs.files ++ [p] := by
  unfold RState.writeAsset at hok
  split at hok
  · exact absurd hok (by simp)
  · rename_i fs2 heq
    injection hok with h2
    subst h2
    exact ⟨rfl, writeFile_ok_files st.fs p fs2 heq⟩

/-- Two successive appends compose. -/
theorem append_two {α : Type} {w0 w1 w2 : List α} {a b : List α}
    (h1 : w1 = w0 ++ a) (h2 : w2 = w1 ++ b) : w2 = w0 ++ (a ++ b) := by
  rw [h2, h1, List.append_assoc]

/-- Rendering one entry extends the materialized-file record and the
file system by the same new files, in the same order. -/
theorem renderEntry_delta (cfg : Config) (v : Value) (st : RState)
    (h : Html) (st2 : RState)
    (hok : renderEntryHtml cfg st v = Except.ok (h, st2)) :
    ∃ d, st2.written = st.written ++ d ∧ st2.fs.files = st.fs.files ++ d := by
  cases v
  case mplElem tag height width fig =>
    simp only [renderEntryHtml, mplGetHtml] at hok
    split at hok
    · exact absurd hok (by simp)
    · rename_i stA heq
      obtain ⟨hw, hf⟩ := writeAsset_ok_state _ _ _ heq
      simp only [Except.ok.injEq, Prod.mk.injEq] at hok
      obtain ⟨hh, hst⟩ := hok
      subst hst
      exact ⟨_, hw, hf⟩
  case plotlyElem tag height width lh fig =>
    simp only [renderEntryHtml, plotlyGetHtml] at hok
    split at hok
    · exact absurd hok (by simp)
    · rename_i stA heq1
      obtain ⟨hw1, hf1⟩ := writeAsset_ok_state _ _ _ heq1
      split at hok
      · split at hok
        · exact absurd hok (by simp)
        · rename_i stB heq2
          obtain ⟨hw2, hf2⟩ := writeAsset_ok_state _ _ _ heq2
          simp only [Except.ok.injEq, Prod.mk.injEq] at hok
          obtain ⟨hh, hst⟩ := hok
          subst hst
          exact ⟨_, append_two hw1 hw2, append_two hf1 hf2⟩
      · simp only [Except.ok.injEq, Prod.mk.injEq] at hok
        obtain ⟨hh, hst⟩ := hok
        subst hst
        exact ⟨_, hw1, hf1⟩
  all_goals
    simp only [renderEntryHtml, Except.ok.injEq, Prod.mk.injEq] at hok
    obtain ⟨hh, hst⟩ := hok
    subst hst
    exact ⟨[], by simp, by simp⟩

/-- The per-container loop preserves the record/file-system step
invariant. -/
theorem renderCols_delta (cfg : Config) (cls : String) :
    ∀ (vs : List Value) (st : RState) (hs : List Html) (st2 : RState),
      renderCols cfg cls st vs = Except.ok (hs, st2) →
      ∃ d, st2.written = st.written ++ d ∧ st2.fs.files = st.fs.files ++ d := by
  intro vs
  induction vs with
  | nil =>
    intro st hs st2 hok
    simp only [renderCols, Except.ok.injEq, Prod.mk.injEq] at hok
    obtain ⟨hh, hst⟩ := hok
    subst hst
    exact ⟨[], by simp, by simp⟩
  | cons v rest ih =>
    intro st hs st2 hok
    simp only [renderCols] at hok
    split at hok
    · exact absurd hok (by simp)
    · rename_i h1 stm heq1
      split at hok
      · exact absurd hok (by simp)
      · rename_i hs2 st3 heq2
        simp only [Except.ok.injEq, Prod.mk.injEq] at hok
        obtain ⟨d1, hw1, hf1⟩ := renderEntry_delta cfg v st h1 stm heq1
        obtain ⟨d2, hw2, hf2⟩ := ih stm hs2 st3 heq2
        refine ⟨d1 ++ d2, ?_, ?_⟩
        · rw [← hok.2, hw2, hw1, List.append_assoc]
        · rw [← hok.2, hf2, hf1, List.append_assoc]

/-- A rendered container preserves the step invariant. -/
theorem ncolsHtml_delta (cfg : Config) (c : NCols) (st : RState)
    (h : Html) (st2 : RState)
    (hok : ncolsHtml cfg st c = Except.ok (h, st2)) :
    ∃ d, st2.written = st.written ++ d ∧ st2.fs.files = st.fs.files ++ d := by
  simp only [ncolsHtml] at hok
  split at hok
  · exact absurd hok (by simp)
  · rename_i hs stm heq
    simp only [Except.ok.injEq, Prod.mk.injEq] at hok
    obtain ⟨d, hw, hf⟩ := renderCols_delta cfg c.col_cls c.elements st hs stm heq
    rw [← hok.2]
    exact ⟨d, hw, hf⟩

/-- A full element pass extends the file system by exactly the files
it records as materialized, in order. -/
theorem writeElements_delta (cfg : Config) :
    ∀ (els : List NCols) (st : RState) (hs : List Html) (st2 : RState),
      writeElements cfg st els = Except.ok (hs, st2) →
      ∃ d, st2.written = st.written ++ d ∧ st2.fs.files = st.fs.files ++ d := by
  intro els
  induction els with
  | nil =>
    intro st hs st2 hok
    simp only [writeElements, Except.ok.injEq, Prod.mk.injEq] at hok
    obtain ⟨hh, hst⟩ := hok
    subst hst
    exact ⟨[], by simp, by simp⟩
  | cons c rest ih =>
    intro st hs st2 hok
    simp only [writeElements] at hok
    split at hok
    · exact absurd hok (by simp)
    · rename_i h1 stm heq1
      split at hok
      · exact absurd hok (by simp)
      · rename_i hs2 st3 heq2
        simp only [Except.ok.injEq, Prod.mk.injEq] at hok
        obtain ⟨d1, hw1, hf1⟩ := ncolsHtml_delta cfg c st h1 stm heq1
        obtain ⟨d2, hw2, hf2⟩ := ih stm hs2 st3 heq2
        refine ⟨d1 ++ d2, ?_, ?_⟩
        · rw [← hok.2, hw2, hw1, List.append_assoc]
        · rw [← hok.2, hf2, hf1, List.append_assoc]

/-- The report and report-file facts of a successful resolved pass:
the builder state is the one passed in, and the report file is on
disk afterwards. -/
theorem writeResolved_ok_report (r : Report) (pinfo : PathInfo) (fs : FS)
    (ctr : Nat) (out : WriteOut)
    (hok : r.writeResolved pinfo fs ctr = Except.ok out) :
    out.report = r ∧ pinfo.htmlPath ∈ out.fs.files := by
  obtain ⟨frags, st1, fs2, _, hfile, hout⟩ :=
    writeResolved_ok_inv r pinfo fs ctr out hok
  subst hout
  refine ⟨rfl, ?_⟩
  show pinfo.htmlPath ∈ fs2.files
  rw [writeFile_ok_files st1.fs pinfo.htmlPath fs2 hfile]
  simp

/-- Filtering with a predicate after filtering with its negation
leaves nothing. -/
theorem filter_after_exclusion {α : Type} (p : α → Bool) (l : List α) :
    (l.filter (fun a => !(p a))).filter p = [] := by
  induction l with
  | nil => rfl
  | cons a t ih =>
    by_cases hp : p a = true <;> simp [List.filter_cons, hp, ih]

/-- `isPrefixOf` cancels a common leading segment. -/
theorem isPrefixOf_append_cancel (dir l1 l2 : List String) :
    (dir ++ l1).isPrefixOf (dir ++ l2) = l1.isPrefixOf l2 := by
  induction dir with
  | nil => rfl
  | cons a t ih => simp [List.isPrefixOf, ih]

/-- The report file itself never lies inside its own asset directory
(`assets/<stem>` is two components below the directory the report file
sits in directly). -/
theorem isUnder_assets_htmlPath (pinfo : PathInfo) :
    isUnder pinfo.assets pinfo.htmlPath = false := by
  have hpre : (pinfo.dir ++ ["assets", pinfo.stem]).isPrefixOf
      (pinfo.dir ++ [pinfo.fileName]) = false := by
    rw [isPrefixOf_append_cancel]
    simp [List.isPrefixOf]
  simp [isUnder, PathInfo.assets, PathInfo.htmlPath, hpre]

/-! ## Write-protocol claims -/

/-- C5: a path given to `write` overrides the constructed one, an
omitted path falls back to the constructed one (the pass runs on
exactly the resolved path, and any successful return carries it and
the report file written there), and when neither is present `write`
raises the configuration error synchronously, before any file-system
activity (the error return carries no file-system change). -/
theorem write_path_resolution (r : Report) (piv : PathInfo) (q : String)
    (fs : FS) (ctr : Nat) :
    (r.pathInfo = none →
      r.write none fs ctr =
        Except.error "Trying to call Report.write() without specifying an output path.") ∧
    (r.pathInfo = some piv →
      r.write none fs ctr = r.writeResolved piv fs ctr ∧
      ∀ out : WriteOut, r.write none fs ctr = Except.ok out →
        out.report.pathInfo = some piv ∧ piv.htmlPath ∈ out.fs.files) ∧
    (r.write (some q) fs ctr
        = (r.setup_path (some q)).writeResolved (mkPathInfo q) fs ctr ∧
      ∀ out : WriteOut, r.write (some q) fs ctr = Except.ok out →
        out.report.pathInfo = some (mkPathInfo q)) := by
  refine ⟨?_, ?_, ?_⟩
  · intro h
    simp [Report.write, Report.setup_path, h]
  · intro h
    have heqw : r.write none fs ctr = r.writeResolved piv fs ctr := by
      simp [Report.write, Report.setup_path, h]
    refine ⟨heqw, ?_⟩
    intro out hko
    rw [heqw] at hko
    obtain ⟨hrep, hmem⟩ := writeResolved_ok_report r piv fs ctr out hko
    rw [hrep]
    exact ⟨h, hmem⟩
  · have heqw : r.write (some q) fs ctr
        = (r.setup_path (some q)).writeResolved (mkPathInfo q) fs ctr := by
      simp [Report.write, Report.setup_path]
    refine ⟨heqw, ?_⟩
    intro out hko
    rw [heqw] at hko
    obtain ⟨hrep, _⟩ :=
      writeResolved_ok_report (r.setup_path (some q)) (mkPathInfo q) fs ctr out hko
    rw [hrep]
    simp [Report.setup_path]

/-- C5 witness: a report constructed without a path errors when
`write` is called without one. -/
theorem write_path_resolution_witness :
    (Report.init none "t" true 2).write none fsEmpty 0 =
      Except.error "Trying to call Report.write() without specifying an output path." :=
  (write_path_resolution (Report.init none "t" true 2)
    { dir := [], fileName := "", stem := "" } "q" fsEmpty 0).1 rfl

/-- C10: `write` leaves the accumulated builder state (elements, TOC,
title, thumbnail flag, TOC width) unchanged; the path-derived fields
change only when a non-null path argument is supplied. -/
theorem write_builder_frame (r : Report) (p : Option String)
    (fs : FS) (ctr : Nat) (out : WriteOut)
    (hok : r.write p fs ctr = Except.ok out) :
    out.report.elements = r.elements ∧ out.report.toc = r.toc ∧
    out.report.title = r.title ∧
    out.report.plotly_thumbnails = r.plotly_thumbnails ∧
    out.report.toc_width = r.toc_width ∧
    (p = none → out.report.pathInfo = r.pathInfo) ∧
    (∀ q : String, p = some q → out.report.pathInfo = some (mkPathInfo q)) := by
  obtain ⟨pinfo, hpi, hres⟩ := write_ok_inv r p fs ctr out hok
  obtain ⟨hrep, _⟩ := writeResolved_ok_report _ pinfo fs ctr out hres
  rw [hrep]
  obtain ⟨he, ht, hti, hth, htw⟩ := setup_path_frame r p
  refine ⟨he, ht, hti, hth, htw, ?_, ?_⟩
  · intro hp
    subst hp
    rfl
  · intro q hp
    subst hp
    rfl

/-- C10 witness: concrete write leaving a populated builder intact. -/
theorem write_builder_frame_witness :
    (okOr (((Report.init (some "/t/x.html") "T" true 2).add_element
        (AddInput.val (Value.strVal "hello"))).write none fsEmpty 0) emptyOut).report.elements
      = ((Report.init (some "/t/x.html") "T" true 2).add_element
        (AddInput.val (Value.strVal "hello"))).elements :=
  (write_builder_frame
    ((Report.init (some "/t/x.html") "T" true 2).add_element
      (AddInput.val (Value.strVal "hello"))) none fsEmpty 0
    (okOr (((Report.init (some "/t/x.html") "T" true 2).add_element
      (AddInput.val (Value.strVal "hello"))).write none fsEmpty 0) emptyOut) rfl).1

/-- The fragments of a successful element pass (empty on a failed
one; used to state body-shape facts without binders). -/
def fragsOr (e : Except String (List Html × RState)) : List Html :=
  match e with
  | .ok x => x.1
  | .error _ => []

/-- C6: with an empty TOC the body holds the content directly after
the title block (no TOC column); with a nonempty TOC the body holds
exactly one two-column layout: a `toc_width`-twelfths column with one
link per TOC entry and a `(12 - toc_width)`-twelfths column with all
content. -/
theorem write_toc_layout (r : Report) (p : Option String)
    (fs : FS) (ctr : Nat) (out : WriteOut) (pinfo : PathInfo)
    (hok : r.write p fs ctr = Except.ok out)
    (hpi : out.report.pathInfo = some pinfo) :
    (out.report.toc = [] →
      out.body = titleBlock out.report.title ::
        fragsOr (writeElements (cfgOf out.report pinfo)
          (resetState fs pinfo ctr) out.report.elements)) ∧
    (out.report.toc ≠ [] →
      out.body = [titleBlock out.report.title,
        Html.tag "div" [("class", "container-fluid")]
          [Html.tag "div" [("class", "row")]
            [Html.tag "div" [("class", "col-md-" ++ toString out.report.toc_width)]
               (out.report.toc.map tocLink),
             Html.tag "div" [("class", "col-lg-" ++ toString (12 - out.report.toc_width))]
               (fragsOr (writeElements (cfgOf out.report pinfo)
                 (resetState fs pinfo ctr) out.report.elements))]]]) := by
  obtain ⟨pinfo2, hpi2, hres⟩ := write_ok_inv r p fs ctr out hok
  obtain ⟨frags, st1, fs2, helems, hfile, hout⟩ :=
    writeResolved_ok_inv _ pinfo2 fs ctr out hres
  have hrep : out.report = r.setup_path p := by rw [hout]
  rw [hrep] at hpi
  rw [hpi2] at hpi
  have hpp : pinfo2 = pinfo := by injection hpi
  subst hpp
  have hbody : out.body = bodyOf (r.setup_path p) frags := by rw [hout]
  rw [hrep, hbody, helems]
  constructor
  · intro htoc
    rw [bodyOf, if_pos htoc]
    rfl
  · intro htoc
    rw [bodyOf, if_neg htoc]
    rfl

/-- C6 witness: a report with no section headers emits its content
directly after the title block. -/
theorem write_toc_layout_witness :
    (okOr ((Report.init (some "/t/x.html") "T" true 2).write none fsEmpty 0) emptyOut).body
      = titleBlock (okOr ((Report.init (some "/t/x.html") "T" true 2).write
          none fsEmpty 0) emptyOut).report.title ::
        fragsOr (writeElements
          (cfgOf (okOr ((Report.init (some "/t/x.html") "T" true 2).write
            none fsEmpty 0) emptyOut).report
            { dir := ["t"], fileName := "x.html", stem := "x" })
          (resetState fsEmpty { dir := ["t"], fileName := "x.html", stem := "x" } 0)
          (okOr ((Report.init (some "/t/x.html") "T" true 2).write
            none fsEmpty 0) emptyOut).report.elements) :=
  (write_toc_layout (Report.init (some "/t/x.html") "T" true 2) none fsEmpty 0
    (okOr ((Report.init (some "/t/x.html") "T" true 2).write none fsEmpty 0) emptyOut)
    { dir := ["t"], fileName := "x.html", stem := "x" } rfl rfl).1 rfl

/-- C1 (amended): after any successful `write`, the asset directory
contains exactly those files materialized during that call whose
computed target lies inside the asset directory — the directory is
deleted and recreated before rendering, so nothing from an earlier
call survives in it.  Matplotlib images and plotly documents always
target the directory; a plotly thumbnail whose `".html"`→`".png"`
path-string surgery relocates it escapes only when the relocated
parent directory already exists (for instance as the asset directory
of a sibling report) — otherwise the materialization fails and the
whole write aborts instead of returning. -/
theorem write_assets_dir_reset (r : Report) (p : Option String)
    (fs : FS) (ctr : Nat) (out : WriteOut) (pinfo : PathInfo)
    (hok : r.write p fs ctr = Except.ok out)
    (hpi : out.report.pathInfo = some pinfo) :
    out.fs.files.filter (isUnder pinfo.assets) =
      out.written.filter (isUnder pinfo.assets) := by
  obtain ⟨pinfo2, hpi2, hres⟩ := write_ok_inv r p fs ctr out hok
  obtain ⟨frags, st1, fs2, helems, hfile, hout⟩ :=
    writeResolved_ok_inv _ pinfo2 fs ctr out hres
  have hrep : out.report = r.setup_path p := by rw [hout]
  rw [hrep, hpi2] at hpi
  have hpp : pinfo2 = pinfo := by injection hpi
  subst hpp
  obtain ⟨d, hw, hf⟩ := writeElements_delta (cfgOf (r.setup_path p) pinfo2)
    (r.setup_path p).elements (resetState fs pinfo2 ctr) frags st1 helems
  have hreset_w : (resetState fs pinfo2 ctr).written = [] := rfl
  have hreset_f : (resetState fs pinfo2 ctr).fs.files =
      fs.files.filter (fun f => !(isUnder pinfo2.assets f)) := rfl
  rw [hreset_w, List.nil_append] at hw
  rw [hreset_f] at hf
  have hfs2 := writeFile_ok_files st1.fs pinfo2.htmlPath fs2 hfile
  have houtfs : out.fs = fs2 := by rw [hout]
  have houtw : out.written = st1.written := by rw [hout]
  rw [houtfs, houtw, hfs2, hf, hw, List.filter_append, List.filter_append,
    filter_after_exclusion]
  simp [List.filter_cons, isUnder_assets_htmlPath]

/-- First write of the C1 witness report, from an empty disk. -/
def c1wOut1 : WriteOut :=
  okOr (((Report.init (some "/t/x.html") "T" true 2).add_element
    (AddInput.val (Value.pltFig 0))).write none fsEmpty 0) emptyOut

/-- Second write of the C1 witness report at the same path. -/
def c1wOut2 : WriteOut :=
  okOr (c1wOut1.report.write none c1wOut1.fs c1wOut1.ctr) emptyOut

/-- C1 witness: two successive writes of a one-image report at the
same path leave the asset directory holding exactly the second call's
image. -/
theorem write_assets_dir_reset_witness :
    c1wOut2.fs.files.filter
        (isUnder (PathInfo.assets { dir := ["t"], fileName := "x.html", stem := "x" }))
      = c1wOut2.written.filter
        (isUnder (PathInfo.assets { dir := ["t"], fileName := "x.html", stem := "x" })) :=
  write_assets_dir_reset c1wOut1.report none c1wOut1.fs c1wOut1.ctr c1wOut2
    { dir := ["t"], fileName := "x.html", stem := "x" } rfl rfl

/-- The C1 counterexample report: output path `/d/r.html.html` (stem
`r.html`), one plotly figure, thumbnails on. -/
def c1Report : Report :=
  (Report.init (some "/d/r.html.html") "t" true 2).add_element
    (AddInput.val (Value.goFig 0 none))

/-- A sibling report at `/d/r.png.html` (stem `r.png`): writing it
makes the program itself create the directory `/d/assets/r.png`. -/
def c1Sib : WriteOut :=
  okOr ((Report.init (some "/d/r.png.html") "t" true 2).write none fsEmpty 0) emptyOut

/-- First write of the C1 counterexample report, after the sibling. -/
def c1Out1 : WriteOut := okOr (c1Report.write none c1Sib.fs c1Sib.ctr) emptyOut

/-- Second write of the C1 counterexample report at the same path. -/
def c1Out2 : WriteOut :=
  okOr (c1Out1.report.write none c1Out1.fs c1Out1.ctr) emptyOut

/-- C1 counterexample: the thumbnail target of the report at
`/d/r.html.html` is computed by replacing `".html"` with `".png"` in
the whole path string, relocating it to `/d/assets/r.png/…`.  On an
empty disk that directory is missing, so the materialization raises
and the write aborts (first conjunct).  But once the program itself
has created `/d/assets/r.png` — by writing a sibling report at
`/d/r.png.html` — both writes succeed, and after the second the asset
directory `/d/assets/r.html` does not contain exactly the files the
second call materialized: the second call's thumbnail sits outside
it. -/
theorem write_assets_dir_reset_counterexample :
    isOkE (c1Report.write none fsEmpty 0) = false ∧
    isOkE ((Report.init (some "/d/r.png.html") "t" true 2).write none fsEmpty 0) = true ∧
    isOkE (c1Report.write none c1Sib.fs c1Sib.ctr) = true ∧
    isOkE (c1Out1.report.write none c1Out1.fs c1Out1.ctr) = true ∧
    c1Out2.fs.files.filter (isUnder ["d", "assets", "r.html"]) ≠ c1Out2.written := by
  decide

/-- The C4 report: output path `/a/r.html`, one matplotlib figure. -/
def c4Report : Report :=
  (Report.init (some "/a/r.html") "t" true 2).add_element
    (AddInput.val (Value.pltFig 0))

/-- The C4 write outcome, from an empty disk. -/
def c4Out : WriteOut := okOr (c4Report.write none fsEmpty 0) emptyOut

/-- C4: the write succeeds and materializes `/a/assets/r/id0.png`,
but the `src` reference emitted for the image is `"..ssets/r/id0.png"`
— `str.replace` of the directory string `"/a"` also hits the `"/a"`
inside `"/assets"` — so the emitted reference, resolved against the
report file's directory, names no existing file and not the
materialized one. -/
theorem image_reference_bug :
    isOkE (c4Report.write none fsEmpty 0) = true ∧
    c4Out.written = [["a", "assets", "r", "id0.png"]] ∧
    ["a", "assets", "r", "id0.png"] ∈ c4Out.fs.files ∧
    collectSrcsList c4Out.body = ["..ssets/r/id0.png"] ∧
    resolveRel ["a"] "..ssets/r/id0.png" ∉ c4Out.fs.files ∧
    resolveRel ["a"] "..ssets/r/id0.png" ≠ ["a", "assets", "r", "id0.png"] := by
  decide

end Rrg
